import Mathlib

/-!
Verification of the core physics, terrain and entity code of a lunar-lander
simulation.  The embedding is shallow: C++ floats are modelled as exact
rationals, the trigonometric evaluations used by the thrust code are
abstracted by an oracle (a pair of rational-valued functions standing for
the sine and cosine of the roll angle), nullable pointers are modelled by
Option, and the in-place mutation performed by the physics step is modelled
by explicit state passing.  Functions that begin by dereferencing a pointer
without a null check are given the result type Option, where none marks the
absence of any defined early-return result on a null argument.
-/

namespace LunarLander

/-- Models the relevant state of class Lander from Entity.h / Entity.cpp:
position, velocity, roll rotation (degrees), pixel dimensions, mass, thrust
state, fuel state and the two terminal flags. -/
structure Lander where
  posX : ℚ
  posY : ℚ
  posZ : ℚ
  velX : ℚ
  velY : ℚ
  velZ : ℚ
  rotZ : ℚ
  width : ℚ
  height : ℚ
  mass : ℚ
  thrustLevel : ℚ
  thrustActive : Bool
  fuel : ℚ
  maxFuel : ℚ
  fuelConsumptionRate : ℚ
  landed : Bool
  crashed : Bool
deriving DecidableEq, Repr

/-- Models struct TerrainSegment: a 2D segment in screen-pixel space with a
landing-pad marker. -/
structure TerrainSegment where
  x1 : ℚ
  y1 : ℚ
  x2 : ℚ
  y2 : ℚ
  isLandingPad : Bool
deriving DecidableEq, Repr

/-- Models the 2D part of class Terrain: the segment list together with the
screen height and the pixels-per-meter conversion factor used by the
collision queries. -/
structure Terrain2D where
  segments : List TerrainSegment
  mHeight : ℚ
  pixelsPerMeter : ℚ
deriving DecidableEq, Repr

/-- Models struct TerrainTriangle: nine vertex coordinates plus the
landing-pad marker (the normal is irrelevant to the verified queries). -/
structure TerrainTriangle where
  v1x : ℚ
  v1y : ℚ
  v1z : ℚ
  v2x : ℚ
  v2y : ℚ
  v2z : ℚ
  v3x : ℚ
  v3y : ℚ
  v3z : ℚ
  isLandingPad : Bool
deriving DecidableEq, Repr

/-- Models the 3D part of class Terrain: the triangle list. -/
structure Terrain3D where
  triangles : List TerrainTriangle
deriving DecidableEq, Repr

/-- Abstraction of the std sin and cos evaluations applied to the roll angle
(in degrees) by the thrust code; the theorems hold for every oracle. -/
structure TrigOracle where
  sinD : ℚ → ℚ
  cosD : ℚ → ℚ

/-- Models the state owned by class Physics in 2D mode: gravity, time scale,
pixels-per-meter and the registered (nullable) lander and terrain. -/
structure PhysState where
  gravity : ℚ
  timeScale : ℚ
  pixelsPerMeter : ℚ
  lander : Option Lander
  terrain : Option Terrain2D
deriving DecidableEq, Repr

/-- Screen x-coordinate of the lander bottom center, as computed by
Terrain.cpp: position x times pixels-per-meter. -/
def screenX (t : Terrain2D) (l : Lander) : ℚ :=
  l.posX * t.pixelsPerMeter

/-- Physics-unit y-coordinate of the lander bottom, as computed by
Terrain.cpp lines 97-102: position y minus half the height in meters. -/
def landerBottomY (t : Terrain2D) (l : Lander) : ℚ :=
  l.posY - (l.height / t.pixelsPerMeter) / 2

/-- Terrain height in meters over a segment at screen coordinate sx, as
computed by Terrain.cpp lines 113-117: linear interpolation of the segment
y at sx, then conversion back to physics units. -/
def segmentHeightMeters (t : Terrain2D) (sx : ℚ) (s : TerrainSegment) : ℚ :=
  (t.mHeight - (s.y1 + (sx - s.x1) / (s.x2 - s.x1) * (s.y2 - s.y1))) / t.pixelsPerMeter

/-- Spec-side predicate: the horizontal span of a segment contains the
screen x-coordinate of the lander. -/
def SegmentContainsX (t : Terrain2D) (l : Lander) (s : TerrainSegment) : Prop :=
  s.x1 ≤ screenX t l ∧ screenX t l ≤ s.x2

instance (t : Terrain2D) (l : Lander) (s : TerrainSegment) :
    Decidable (SegmentContainsX t l s) := by
  unfold SegmentContainsX; infer_instance

/-- Spec-side predicate: the lander collides with a segment, i.e. the span
contains its x-coordinate and its bottom is at or below the interpolated
terrain height. -/
def CollidesWith (t : Terrain2D) (l : Lander) (s : TerrainSegment) : Prop :=
  SegmentContainsX t l s ∧ landerBottomY t l ≤ segmentHeightMeters t (screenX t l) s

/-- Per-segment body of the loop of Terrain.CheckCollision2D (Terrain.cpp
lines 109-126): some height on collision with this segment, none otherwise. -/
def collideSegment (t : Terrain2D) (l : Lander) (s : TerrainSegment) : Option ℚ :=
  if s.x1 ≤ screenX t l ∧ screenX t l ≤ s.x2 then
    if landerBottomY t l ≤ segmentHeightMeters t (screenX t l) s then
      some (segmentHeightMeters t (screenX t l) s)
    else none
  else none

/-- Models Terrain.CheckCollision2D on a non-null lander: scan the segments
in order and return the first collision height found. -/
def checkCollision2DCore (t : Terrain2D) (l : Lander) : Option ℚ :=
  t.segments.findSome? (collideSegment t l)

/-- Models the full entry of Terrain.CheckCollision2D (Terrain.cpp line 92):
a null lander takes the early return (result false, height untouched),
encoded as none. -/
def checkCollision2D (t : Terrain2D) (lander : Option Lander) : Option ℚ :=
  match lander with
  | none => none
  | some l => checkCollision2DCore t l

/-- Safe vertical speed bound of Terrain.IsValidLanding2D (2.0 m/s). -/
def safeVerticalVelocity : ℚ := 2

/-- Safe horizontal speed bound of Terrain.IsValidLanding2D (1.0 m/s). -/
def safeHorizontalVelocity : ℚ := 1

/-- Models Terrain.IsValidLanding2D on a non-null lander (Terrain.cpp lines
149-188): true iff some landing-pad segment span contains the lander screen
x and both velocity components are within the safe bounds.  The loop
returns true at the first segment satisfying all conditions and falls
through to false otherwise, which is exactly an existential scan. -/
def isValidLanding2DCore (t : Terrain2D) (l : Lander) : Bool :=
  t.segments.any (fun s =>
    s.isLandingPad && decide (s.x1 ≤ screenX t l) && decide (screenX t l ≤ s.x2) &&
    decide (|l.velY| ≤ safeVerticalVelocity) && decide (|l.velX| ≤ safeHorizontalVelocity))

/-- Models the full entry of Terrain.IsValidLanding2D (Terrain.cpp line
132): a null lander takes the early return false. -/
def isValidLanding2D (t : Terrain2D) (lander : Option Lander) : Bool :=
  match lander with
  | none => false
  | some l => isValidLanding2DCore t l

/-- Minimum of three rationals, as std min of an initializer list. -/
def min3 (a b c : ℚ) : ℚ := min (min a b) c

/-- Maximum of three rationals, as std max of an initializer list. -/
def max3 (a b c : ℚ) : ℚ := max (max a b) c

/-- Spec-side predicate: the horizontal bounding box of a triangle contains
the point (x, z), as in Terrain.cpp lines 326-329. -/
def TriContainsXZ (tr : TerrainTriangle) (x z : ℚ) : Prop :=
  min3 tr.v1x tr.v2x tr.v3x ≤ x ∧ x ≤ max3 tr.v1x tr.v2x tr.v3x ∧
  min3 tr.v1z tr.v2z tr.v3z ≤ z ∧ z ≤ max3 tr.v1z tr.v2z tr.v3z

instance (tr : TerrainTriangle) (x z : ℚ) : Decidable (TriContainsXZ tr x z) := by
  unfold TriContainsXZ; infer_instance

/-- Average height of the three vertices of a triangle (Terrain.cpp line
332). -/
def triAvgHeight (tr : TerrainTriangle) : ℚ :=
  (tr.v1y + tr.v2y + tr.v3y) / 3

/-- Models the body of Terrain.CheckCollision3D on a non-null lander. -/
def checkCollision3DCore (t : Terrain3D) (l : Lander) : Option ℚ :=
  t.triangles.findSome? (fun tr =>
    if TriContainsXZ tr l.posX l.posZ then
      if l.posY + l.height / 2 ≥ triAvgHeight tr then some (triAvgHeight tr) else none
    else none)

/-- Models the full entry of Terrain.CheckCollision3D (Terrain.cpp line
292): the first statement dereferences the lander with no null check, so on
a null lander there is no defined early-return result, encoded by the outer
none. -/
def checkCollision3D (t : Terrain3D) (lander : Option Lander) : Option (Option ℚ) :=
  match lander with
  | none => none
  | some l => some (checkCollision3DCore t l)

/-- Single safe speed bound of Terrain.IsValidLanding3D (2.0 m/s). -/
def safeVelocity3D : ℚ := 2

/-- Models the body of Terrain.IsValidLanding3D on a non-null lander
(Terrain.cpp lines 354-385). -/
def isValidLanding3DCore (t : Terrain3D) (l : Lander) : Bool :=
  t.triangles.any (fun tr =>
    tr.isLandingPad && decide (TriContainsXZ tr l.posX l.posZ) &&
    decide (|l.velX| ≤ safeVelocity3D) && decide (0 ≤ l.velY) &&
    decide (l.velY ≤ safeVelocity3D) && decide (|l.velZ| ≤ safeVelocity3D))

/-- Models the full entry of Terrain.IsValidLanding3D (Terrain.cpp line
345): the first statement dereferences the lander with no null check, so on
a null lander there is no defined early-return result, encoded by none. -/
def isValidLanding3D (t : Terrain3D) (lander : Option Lander) : Option Bool :=
  match lander with
  | none => none
  | some l => some (isValidLanding3DCore t l)

/-- Models Lander.Update (Entity.cpp lines 71-88): while thrust is active
and fuel positive, consume fuel at rate times thrust level times dt,
clamped at zero; when the clamped fuel is not positive, force thrust off. -/
def landerUpdate (dt : ℚ) (l : Lander) : Lander :=
  if l.thrustActive = true ∧ 0 < l.fuel then
    if max 0 (l.fuel - l.fuelConsumptionRate * l.thrustLevel * dt) ≤ 0 then
      { l with fuel := max 0 (l.fuel - l.fuelConsumptionRate * l.thrustLevel * dt),
               thrustActive := false, thrustLevel := 0 }
    else
      { l with fuel := max 0 (l.fuel - l.fuelConsumptionRate * l.thrustLevel * dt) }
  else l

/-- Models Lander.ApplyThrust (Entity.cpp lines 95-109): with exhausted
fuel force thrust off, otherwise clamp the requested level into the unit
interval and set the active flag iff the clamped level is positive. -/
def landerApplyThrust (amount : ℚ) (l : Lander) : Lander :=
  if l.fuel ≤ 0 then
    { l with thrustActive := false, thrustLevel := 0 }
  else
    { l with thrustLevel := max 0 (min 1 amount),
             thrustActive := decide (0 < max 0 (min 1 amount)) }

/-- Models Lander.Reset (Entity.cpp lines 123-149) on the modelled fields. -/
def landerReset (l : Lander) : Lander :=
  { l with posX := 0, posY := 5, posZ := 0, rotZ := 0,
           velX := 0, velY := 0, velZ := 0,
           thrustLevel := 0, thrustActive := false,
           fuel := l.maxFuel, landed := false, crashed := false }

/-- Models the integration part of Physics.Update2D (Physics.cpp lines
490-519) with step h: skip when terminal, otherwise apply gravity to the
vertical velocity, add the thrust acceleration along the heading when
thrust is active, then advance the position with the updated velocity. -/
def integrate2D (o : TrigOracle) (g : ℚ) (h : ℚ) (l : Lander) : Lander :=
  if l.landed = true ∨ l.crashed = true then l
  else
    let vy1 := l.velY - g * h
    let thrustAccel := (l.mass * (5/2) * g * l.thrustLevel) / l.mass
    let vx2 := if l.thrustActive = true then
        l.velX + (-(o.sinD l.rotZ)) * thrustAccel * h
      else l.velX
    let vy2 := if l.thrustActive = true then
        vy1 + (o.cosD l.rotZ) * thrustAccel * h
      else vy1
    { l with velX := vx2, velY := vy2,
             posX := l.posX + vx2 * h, posY := l.posY + vy2 * h }

/-- Models Physics.CheckCollisions2D (Physics.cpp lines 525-572): with both
collaborators present and the lander not terminal, on a detected collision
snap the position so the bottom sits at the collision height, classify with
IsValidLanding2D on the snapped lander, zero the velocity and set exactly
the corresponding terminal flag. -/
def checkCollisions2DStep (st : PhysState) : PhysState :=
  match st.lander, st.terrain with
  | some l, some t =>
    if l.landed = true ∨ l.crashed = true then st
    else
      match checkCollision2D t (some l) with
      | some ch =>
        if isValidLanding2D t (some { l with posY := ch + (l.height / st.pixelsPerMeter) / 2 }) then
          { st with lander := some { l with posY := ch + (l.height / st.pixelsPerMeter) / 2,
                                            landed := true, velX := 0, velY := 0 } }
        else
          { st with lander := some { l with posY := ch + (l.height / st.pixelsPerMeter) / 2,
                                            crashed := true, velX := 0, velY := 0 } }
      | none => st
  | _, _ => st

/-- Models Physics.Update2D (Physics.cpp lines 475-523): early return when
a collaborator is null; otherwise scale dt by the time scale, integrate,
then run the 2D collision step. -/
def update2D (o : TrigOracle) (dt : ℚ) (st : PhysState) : PhysState :=
  match st.lander, st.terrain with
  | some l, some _ =>
    checkCollisions2DStep { st with lander := some (integrate2D o st.gravity (dt * st.timeScale) l) }
  | _, _ => st

/-- Models the 2D-mode branch of Physics.Update (Physics.cpp lines 153-178):
scale dt by the time scale and delegate to Update2D, which scales again. -/
def physicsUpdate (o : TrigOracle) (dt : ℚ) (st : PhysState) : PhysState :=
  update2D o (dt * st.timeScale) st

/-- Models Physics.ApplyThrust (Physics.cpp lines 423-472) as it acts on
the lander entity.  The guard returns early on a null lander, a missing
rigid body, or inactive thrust.  The force is applied to the rigid body,
not to the entity.  The computed fuel figure is never written back; its
only use is to force thrust off when current fuel is positive but the
computed remaining fuel is not. -/
def physicsApplyThrust (hasRigidBody : Bool) (dt : ℚ) (lander : Option Lander) :
    Option Lander :=
  match lander with
  | none => none
  | some l =>
    if hasRigidBody = false ∨ l.thrustActive = false then some l
    else
      if 0 < l.fuel ∧ max 0 (l.fuel - 10 * l.thrustLevel * dt) ≤ 0 then
        some (landerApplyThrust 0 l)
      else some l

/-- The physics operations of the 2D simulation, for stating invariants
over arbitrary operation sequences. -/
inductive PhysOp where
  | update (dt : ℚ)
  | update2DOp (dt : ℚ)
  | collide
  | entityUpdate (dt : ℚ)
  | thrustCmd (amount : ℚ)
  | engineThrust (hasRigidBody : Bool) (dt : ℚ)
  | reset
deriving DecidableEq, Repr

/-- Runs one physics operation on the state. -/
def runOp (o : TrigOracle) (op : PhysOp) (st : PhysState) : PhysState :=
  match op with
  | .update dt => physicsUpdate o dt st
  | .update2DOp dt => update2D o dt st
  | .collide => checkCollisions2DStep st
  | .entityUpdate dt => { st with lander := st.lander.map (landerUpdate dt) }
  | .thrustCmd a => { st with lander := st.lander.map (landerApplyThrust a) }
  | .engineThrust hrb dt => { st with lander := physicsApplyThrust hrb dt st.lander }
  | .reset => { st with lander := st.lander.map landerReset }

/-- Runs a sequence of physics operations from left to right. -/
def runOps (o : TrigOracle) (ops : List PhysOp) (st : PhysState) : PhysState :=
  ops.foldl (fun s op => runOp o op s) st

/-- Mutual exclusion of the terminal flags of the registered lander. -/
def FlagsExclusive (st : PhysState) : Prop :=
  ∀ l, st.lander = some l → ¬(l.landed = true ∧ l.crashed = true)

/-- Nominal segment width of Terrain.Generate2D: width / segmentCount with
segmentCount = 10, in C++ integer division. -/
def nominalSegW (width : ℕ) : ℕ := width / 10

/-- Landing pad pixel width of Generate2D: two nominal segments
(Terrain.cpp line 60). -/
def landingPadWidth (width : ℕ) : ℕ := nominalSegW width * 2

/-- Landing pad start pixel of Generate2D: centered on the horizontal
midpoint (Terrain.cpp lines 59-63). -/
def landingPadStart (width : ℕ) : ℕ := width / 2 - landingPadWidth width / 2

/-- First segment index marked as landing pad (Terrain.cpp line 66). -/
def startSegment (width : ℕ) : ℕ := landingPadStart width / nominalSegW width

/-- Last segment index marked as landing pad, inclusive (Terrain.cpp line
67). -/
def endSegment (width : ℕ) : ℕ :=
  (landingPadStart width + landingPadWidth width) / nominalSegW width

/-- Models Terrain.Generate2D (Terrain.cpp lines 31-77).  The stream r
supplies the successive rand() values (two per segment, y1 then y2, taken
modulo 20).  Width and height are the non-negative window extents; all
divisions are the C++ integer divisions.  The landing-pad overwrite of the
loop at lines 70-76 touches exactly the indices i with startSegment ≤ i ≤
endSegment that lie in [0, 10), which is fused here into the construction;
the overwrite forces y1 = y2 = baseHeight = height - 50 and marks the pad. -/
def generate2D (r : ℕ → ℕ) (width height : ℕ) : List TerrainSegment :=
  (List.range 10).map (fun i =>
    if startSegment width ≤ i ∧ i ≤ endSegment width then
      { x1 := ((i * nominalSegW width : ℕ) : ℚ), y1 := (((height : ℤ) - 50 : ℤ) : ℚ),
        x2 := (((i + 1) * nominalSegW width : ℕ) : ℚ), y2 := (((height : ℤ) - 50 : ℤ) : ℚ),
        isLandingPad := true }
    else
      { x1 := ((i * nominalSegW width : ℕ) : ℚ),
        y1 := (((height : ℤ) - 50 - ((r (2 * i) % 20 : ℕ) : ℤ) : ℤ) : ℚ),
        x2 := (((i + 1) * nominalSegW width : ℕ) : ℚ),
        y2 := (((height : ℤ) - 50 - ((r (2 * i + 1) % 20 : ℕ) : ℤ) : ℤ) : ℚ),
        isLandingPad := false })

/-- Concrete trig oracle used by witnesses (roll angle 0: sine 0, cosine 1). -/
def egOracle : TrigOracle := ⟨fun _ => 0, fun _ => 1⟩

/-- Concrete 2D terrain: one flat landing-pad segment, 1 m above the
physics ground line, on a 600-pixel-high screen at 20 pixels per meter. -/
def egTerrain : Terrain2D :=
  { segments := [{ x1 := 0, y1 := 580, x2 := 100, y2 := 580, isLandingPad := true }],
    mHeight := 600, pixelsPerMeter := 20 }

/-- Concrete lander descending slowly onto the pad of egTerrain: bottom at
0.7 m, within the pad span, velocity (0, -1). -/
def egLander : Lander :=
  { posX := 2, posY := 6/5, posZ := 0, velX := 0, velY := -1, velZ := 0, rotZ := 0,
    width := 20, height := 20, mass := 1000, thrustLevel := 0, thrustActive := false,
    fuel := 1000, maxFuel := 1000, fuelConsumptionRate := 10, landed := false, crashed := false }

/-- Concrete physics state holding egLander above egTerrain. -/
def egState : PhysState :=
  { gravity := 81/50, timeScale := 1, pixelsPerMeter := 20,
    lander := some egLander, terrain := some egTerrain }

/-- Concrete lander already landed, for terminal-state witnesses. -/
def egLandedLander : Lander :=
  { egLander with landed := true, velX := 0, velY := 0 }

/-- Concrete physics state whose lander is already landed. -/
def egLandedState : PhysState :=
  { egState with lander := some egLandedLander }

/-- Concrete lander burning at half throttle with full tank. -/
def egThrustLander : Lander :=
  { egLander with thrustActive := true, thrustLevel := 1/2 }

/-- Concrete 2D terrain with no segments, so that no collision can fire. -/
def egEmptyTerrain : Terrain2D :=
  { segments := [], mHeight := 600, pixelsPerMeter := 20 }

/-- Concrete free-falling lander far above any terrain, thrust off. -/
def egFreeLander : Lander :=
  { egLander with posY := 100, velY := 0 }

/-- Concrete physics state with time scale 2 and gravity 1, used to exhibit
the double time scaling of the 2D update path. -/
def egScaledState : PhysState :=
  { gravity := 1, timeScale := 2, pixelsPerMeter := 20,
    lander := some egFreeLander, terrain := some egEmptyTerrain }

/-- Concrete empty 3D terrain for the null-argument counterexample. -/
def egTerrain3D : Terrain3D := { triangles := [] }

/-- Concrete physics state with a null lander. -/
def egNullLanderState : PhysState := { egState with lander := none }

/-- Concrete physics state with a null terrain. -/
def egNullTerrainState : PhysState := { egState with terrain := none }

end LunarLander

namespace LunarLander

/-- Helper: a successful ordered scan yields a witness element. -/
theorem findSome?_eq_some_exists {α β : Type} {f : α → Option β} :
    ∀ {xs : List α} {b : β}, xs.findSome? f = some b → ∃ x ∈ xs, f x = some b := by
  intro xs
  induction xs with
  | nil => intro b h; simp [List.findSome?] at h
  | cons a as ih =>
    intro b h
    cases hfa : f a with
    | some c =>
      simp only [List.findSome?, hfa] at h
      exact ⟨a, List.mem_cons_self a as, by rw [hfa, h]⟩
    | none =>
      simp only [List.findSome?, hfa] at h
      obtain ⟨x, hx, hfx⟩ := ih h
      exact ⟨x, List.mem_cons_of_mem a hx, hfx⟩

/-- Helper: an element on which the function succeeds makes the ordered
scan succeed. -/
theorem findSome?_isSome_of_exists {α β : Type} {f : α → Option β} :
    ∀ {xs : List α} {x : α}, x ∈ xs → (f x).isSome = true →
      (xs.findSome? f).isSome = true := by
  intro xs
  induction xs with
  | nil => intro x hx; simp at hx
  | cons a as ih =>
    intro x hx hsome
    rcases List.mem_cons.mp hx with rfl | hmem
    · cases hfa : f x with
      | some c => simp [List.findSome?, hfa]
      | none => rw [hfa] at hsome; simp at hsome
    · cases hfa : f a with
      | some c => simp [List.findSome?, hfa]
      | none => simp only [List.findSome?, hfa]; exact ih hmem hsome

/-- C1: Terrain.IsValidLanding2D on a non-null lander returns true iff some
landing-pad segment span contains the lander screen x-coordinate and the
velocity obeys the vertical bound 2.0 m/s and the horizontal bound 1.0 m/s;
in particular with no containing pad segment the result is false, and the
function is a pure function of the state, so repeated calls agree. -/
theorem isValidLanding2D_iff_pad_and_velocity (t : Terrain2D) (l : Lander) :
    (isValidLanding2D t (some l) = true ↔
      ((∃ s ∈ t.segments, s.isLandingPad = true ∧
          s.x1 ≤ l.posX * t.pixelsPerMeter ∧ l.posX * t.pixelsPerMeter ≤ s.x2) ∧
        |l.velY| ≤ safeVerticalVelocity ∧ |l.velX| ≤ safeHorizontalVelocity)) ∧
    isValidLanding2D t (some l) = isValidLanding2D t (some l) := by
  refine ⟨?_, rfl⟩
  simp only [isValidLanding2D, isValidLanding2DCore, List.any_eq_true, Bool.and_eq_true,
    decide_eq_true_eq, screenX]
  constructor
  · rintro ⟨s, hs, ⟨⟨⟨⟨hpad, h1⟩, h2⟩, hv⟩, hh⟩⟩
    exact ⟨⟨s, hs, hpad, h1, h2⟩, hv, hh⟩
  · rintro ⟨⟨s, hs, hpad, h1, h2⟩, hv, hh⟩
    exact ⟨s, hs, ⟨⟨⟨⟨hpad, h1⟩, h2⟩, hv⟩, hh⟩⟩

/-- C7: Terrain.IsValidLanding3D on a non-null lander returns true iff the
horizontal bounding box of some landing-pad triangle contains the lander
(x, z) and the velocity obeys the single 2.0 m/s bound on all three axes,
the vertical axis additionally required non-negative. -/
theorem isValidLanding3D_iff_pad_and_velocity (t : Terrain3D) (l : Lander) :
    isValidLanding3D t (some l) = some true ↔
      ((∃ tr ∈ t.triangles, tr.isLandingPad = true ∧ TriContainsXZ tr l.posX l.posZ) ∧
        |l.velX| ≤ safeVelocity3D ∧ (0 ≤ l.velY ∧ l.velY ≤ safeVelocity3D) ∧
        |l.velZ| ≤ safeVelocity3D) := by
  simp only [isValidLanding3D, isValidLanding3DCore, Option.some.injEq, List.any_eq_true,
    Bool.and_eq_true, decide_eq_true_eq]
  constructor
  · rintro ⟨tr, htr, ⟨⟨⟨⟨⟨hpad, hbox⟩, hx⟩, hy0⟩, hy1⟩, hz⟩⟩
    exact ⟨⟨tr, htr, hpad, hbox⟩, hx, ⟨hy0, hy1⟩, hz⟩
  · rintro ⟨⟨tr, htr, hpad, hbox⟩, hx, ⟨hy0, hy1⟩, hz⟩
    exact ⟨tr, htr, ⟨⟨⟨⟨⟨hpad, hbox⟩, hx⟩, hy0⟩, hy1⟩, hz⟩⟩

end LunarLander

namespace LunarLander

/-- Helper: per-segment collision body characterization. -/
theorem collideSegment_eq_some_iff (t : Terrain2D) (l : Lander) (s : TerrainSegment) (h : ℚ) :
    collideSegment t l s = some h ↔
      CollidesWith t l s ∧ h = segmentHeightMeters t (screenX t l) s := by
  unfold collideSegment CollidesWith SegmentContainsX
  split_ifs with h1 h2
  · simp only [Option.some.injEq]
    constructor
    · intro he; exact ⟨⟨h1, h2⟩, he.symm⟩
    · intro he; exact he.2.symm
  · simp only [reduceCtorEq, false_iff, not_and]
    intro hc; exact absurd hc.2 h2
  · simp only [reduceCtorEq, false_iff, not_and]
    intro hc; exact absurd hc.1 h1

/-- C2: Terrain.CheckCollision2D on a non-null lander succeeds iff some
segment span contains the lander bottom-center screen x and the lander
bottom is at or below the terrain height interpolated there; the returned
collision height is that interpolated height in meters. -/
theorem checkCollision2D_iff_collides (t : Terrain2D) (l : Lander) :
    ((∃ s ∈ t.segments, CollidesWith t l s) ↔
      ∃ h, checkCollision2D t (some l) = some h) ∧
    (∀ h, checkCollision2D t (some l) = some h →
      ∃ s ∈ t.segments, CollidesWith t l s ∧ h = segmentHeightMeters t (screenX t l) s) := by
  have hdef : checkCollision2D t (some l) = t.segments.findSome? (collideSegment t l) := rfl
  constructor
  · constructor
    · rintro ⟨s, hs, hc⟩
      have heq : collideSegment t l s = some (segmentHeightMeters t (screenX t l) s) :=
        (collideSegment_eq_some_iff t l s _).mpr ⟨hc, rfl⟩
      have hsome := findSome?_isSome_of_exists (f := collideSegment t l) hs (by rw [heq]; rfl)
      rw [← hdef] at hsome
      exact Option.isSome_iff_exists.mp hsome
    · rintro ⟨h, hh⟩
      rw [hdef] at hh
      obtain ⟨s, hs, hfs⟩ := findSome?_eq_some_exists hh
      exact ⟨s, hs, ((collideSegment_eq_some_iff t l s h).mp hfs).1⟩
  · intro h hh
    rw [hdef] at hh
    obtain ⟨s, hs, hfs⟩ := findSome?_eq_some_exists hh
    have := (collideSegment_eq_some_iff t l s h).mp hfs
    exact ⟨s, hs, this.1, this.2⟩

/-- Witness for C2 at a concrete input: the scan of egTerrain finds the
collision of egLander at height 1 m, and the theorem then produces the
witnessing segment. -/
theorem checkCollision2D_iff_collides_witness :
    ∃ s ∈ egTerrain.segments, CollidesWith egTerrain egLander s ∧
      (1 : ℚ) = segmentHeightMeters egTerrain (screenX egTerrain egLander) s := by
  have hc : checkCollision2D egTerrain (some egLander) = some 1 := by
    norm_num [checkCollision2D, checkCollision2DCore, List.findSome?, collideSegment,
      screenX, landerBottomY, segmentHeightMeters, egTerrain, egLander]
  exact (checkCollision2D_iff_collides egTerrain egLander).2 1 hc

end LunarLander

namespace LunarLander

/-- Helper: one fuel step is non-increasing, stays non-negative and keeps
the consumption rate and the non-negativity of the thrust level. -/
theorem landerUpdate_fuel_mono (dt : ℚ) (l : Lander) (hdt : 0 ≤ dt)
    (hr : 0 ≤ l.fuelConsumptionRate) (hl : 0 ≤ l.thrustLevel) (hf : 0 ≤ l.fuel) :
    (landerUpdate dt l).fuel ≤ l.fuel ∧ 0 ≤ (landerUpdate dt l).fuel ∧
    (landerUpdate dt l).fuelConsumptionRate = l.fuelConsumptionRate ∧
    0 ≤ (landerUpdate dt l).thrustLevel := by
  have hc : 0 ≤ l.fuelConsumptionRate * l.thrustLevel * dt :=
    mul_nonneg (mul_nonneg hr hl) hdt
  unfold landerUpdate
  split_ifs with h1 h2
  · exact ⟨max_le hf (by linarith), le_max_left 0 _, rfl, le_refl 0⟩
  · exact ⟨max_le hf (by linarith), le_max_left 0 _, rfl, hl⟩
  · exact ⟨le_refl _, hf, rfl, hl⟩

/-- Helper: folded fuel steps are non-increasing and non-negative. -/
theorem landerUpdate_fold_fuel (dts : List ℚ) :
    ∀ l : Lander, (∀ d ∈ dts, 0 ≤ d) → 0 ≤ l.fuelConsumptionRate →
      0 ≤ l.thrustLevel → 0 ≤ l.fuel →
      (dts.foldl (fun s d => landerUpdate d s) l).fuel ≤ l.fuel ∧
      0 ≤ (dts.foldl (fun s d => landerUpdate d s) l).fuel := by
  induction dts with
  | nil => intro l _ _ _ hf; exact ⟨le_refl _, hf⟩
  | cons d ds ih =>
    intro l hd hr hl hf
    obtain ⟨h1, h2, h3, h4⟩ :=
      landerUpdate_fuel_mono d l (hd d (List.mem_cons_self d ds)) hr hl hf
    have hrec := ih (landerUpdate d l) (fun x hx => hd x (List.mem_cons_of_mem d hx))
      (by rw [h3]; exact hr) h4 h2
    exact ⟨le_trans hrec.1 h1, hrec.2⟩

/-- C5: Lander.Update consumes fuel at rate times thrust level times dt,
clamped at zero, while thrust is active and fuel positive; over any
sequence of non-negative steps fuel is non-increasing and non-negative
(given the maintained non-negativity of rate and level); in the step where
the clamped fuel reaches zero, thrust is forced off and the level zeroed;
and half throttle for two one-second steps at rate 10 kg/s burns exactly
10 kg. -/
theorem landerUpdate_fuel_spec :
    (∀ (l : Lander) (dt : ℚ), l.thrustActive = true → 0 < l.fuel →
      (landerUpdate dt l).fuel = max 0 (l.fuel - l.fuelConsumptionRate * l.thrustLevel * dt)) ∧
    (∀ (l : Lander) (dts : List ℚ), (∀ d ∈ dts, 0 ≤ d) →
      0 ≤ l.fuelConsumptionRate → 0 ≤ l.thrustLevel → 0 ≤ l.fuel →
      (dts.foldl (fun s d => landerUpdate d s) l).fuel ≤ l.fuel ∧
      0 ≤ (dts.foldl (fun s d => landerUpdate d s) l).fuel) ∧
    (∀ (l : Lander) (dt : ℚ), l.thrustActive = true → 0 < l.fuel →
      (landerUpdate dt l).fuel = 0 →
      (landerUpdate dt l).thrustActive = false ∧ (landerUpdate dt l).thrustLevel = 0) ∧
    ((landerUpdate 1 (landerUpdate 1 egThrustLander)).fuel = egThrustLander.fuel - 10) := by
  refine ⟨?_, fun l dts => landerUpdate_fold_fuel dts l, ?_, ?_⟩
  · intro l dt ha hf
    unfold landerUpdate
    rw [if_pos ⟨ha, hf⟩]
    split_ifs <;> rfl
  · intro l dt ha hf hzero
    unfold landerUpdate at hzero ⊢
    rw [if_pos ⟨ha, hf⟩] at hzero ⊢
    split_ifs with h2
    · exact ⟨rfl, rfl⟩
    · rw [if_neg h2] at hzero
      exact absurd (le_of_eq hzero) h2
  · have h1 : landerUpdate 1 egThrustLander = { egThrustLander with fuel := 995 } := by
      unfold landerUpdate egThrustLander egLander
      norm_num
    rw [h1]
    unfold landerUpdate egThrustLander egLander
    norm_num

/-- Witness for C5 at concrete inputs: one step of one second on the
concrete half-throttle lander keeps the formula, the fold over steps
[1, 1] is non-increasing and non-negative, and the thrust cutoff fires on
a lander holding its last 5 kg of fuel. -/
theorem landerUpdate_fuel_spec_witness :
    (landerUpdate 1 egThrustLander).fuel =
      max 0 (egThrustLander.fuel -
        egThrustLander.fuelConsumptionRate * egThrustLander.thrustLevel * 1) ∧
    (([1, 1] : List ℚ).foldl (fun s d => landerUpdate d s) egThrustLander).fuel ≤
      egThrustLander.fuel ∧
    (landerUpdate 1 { egThrustLander with fuel := 5 }).thrustActive = false := by
  refine ⟨?_, ?_, ?_⟩
  · exact landerUpdate_fuel_spec.1 egThrustLander 1 rfl (by norm_num [egThrustLander, egLander])
  · exact (landerUpdate_fuel_spec.2.1 egThrustLander [1, 1] (by intro d hd; fin_cases hd <;> norm_num)
      (by norm_num [egThrustLander, egLander]) (by norm_num [egThrustLander, egLander])
      (by norm_num [egThrustLander, egLander])).1
  · refine (landerUpdate_fuel_spec.2.2.1 { egThrustLander with fuel := 5 } 1 rfl
      (by norm_num) ?_).1
    norm_num [landerUpdate, egThrustLander, egLander]

/-- C10: Physics.ApplyThrust never changes the fuel of the lander entity
(the computed fuel figure is discarded, so fuel is consumed only by
Lander.Update); its only effect on the entity is to force thrust off
exactly when the rigid body exists, thrust is active, current fuel is
positive and the computed clamped remaining fuel is zero. -/
theorem physicsApplyThrust_fuel_frame :
    ∀ (hrb : Bool) (dt : ℚ) (l : Lander),
      ∃ l1, physicsApplyThrust hrb dt (some l) = some l1 ∧ l1.fuel = l.fuel ∧
        ((hrb = true ∧ l.thrustActive = true ∧ 0 < l.fuel ∧
            max 0 (l.fuel - 10 * l.thrustLevel * dt) ≤ 0) →
          l1 = { l with thrustActive := false, thrustLevel := 0 }) ∧
        (¬(hrb = true ∧ l.thrustActive = true ∧ 0 < l.fuel ∧
            max 0 (l.fuel - 10 * l.thrustLevel * dt) ≤ 0) → l1 = l) := by
  intro hrb dt l
  have hred : physicsApplyThrust hrb dt (some l) =
      (if hrb = false ∨ l.thrustActive = false then some l
       else if 0 < l.fuel ∧ max 0 (l.fuel - 10 * l.thrustLevel * dt) ≤ 0 then
         some (landerApplyThrust 0 l)
       else some l) := rfl
  rw [hred]
  by_cases hg : hrb = false ∨ l.thrustActive = false
  · rw [if_pos hg]
    refine ⟨l, rfl, rfl, ?_, fun _ => rfl⟩
    rintro ⟨h1, h2, -, -⟩
    rcases hg with h | h
    · rw [h1] at h; exact absurd h (by simp)
    · rw [h2] at h; exact absurd h (by simp)
  · rw [if_neg hg]
    push_neg at hg
    have hrb1 : hrb = true := by
      cases hrb
      · exact absurd rfl hg.1
      · rfl
    have ha : l.thrustActive = true := by
      cases hat : l.thrustActive
      · exact absurd hat hg.2
      · rfl
    by_cases hc : 0 < l.fuel ∧ max 0 (l.fuel - 10 * l.thrustLevel * dt) ≤ 0
    · rw [if_pos hc]
      refine ⟨landerApplyThrust 0 l, rfl, ?_, ?_, ?_⟩
      · unfold landerApplyThrust
        rw [if_neg (not_le.mpr hc.1)]
      · intro
        unfold landerApplyThrust
        rw [if_neg (not_le.mpr hc.1)]
        norm_num
      · intro hn
        exact absurd ⟨hrb1, ha, hc.1, hc.2⟩ hn
    · rw [if_neg hc]
      refine ⟨l, rfl, rfl, ?_, fun _ => rfl⟩
      rintro ⟨-, -, h3, h4⟩
      exact absurd ⟨h3, h4⟩ hc

/-- Witness for C10 at a concrete input: on the half-throttle lander with a
full tank, a one-second Physics.ApplyThrust leaves the entity unchanged and
in particular its fuel untouched. -/
theorem physicsApplyThrust_fuel_frame_witness :
    ∃ l1, physicsApplyThrust true 1 (some egThrustLander) = some l1 ∧
      l1.fuel = egThrustLander.fuel ∧ l1 = egThrustLander := by
  obtain ⟨l1, he, hfuel, -, hid⟩ := physicsApplyThrust_fuel_frame true 1 egThrustLander
  refine ⟨l1, he, hfuel, hid ?_⟩
  norm_num [egThrustLander, egLander]

end LunarLander

namespace LunarLander

/-- Helper: integration on a terminal lander is the identity. -/
theorem integrate2D_terminal (o : TrigOracle) (g h : ℚ) (l : Lander)
    (ht : l.landed = true ∨ l.crashed = true) : integrate2D o g h l = l := by
  unfold integrate2D; rw [if_pos ht]

/-- Helper: integration never touches the landed flag. -/
theorem integrate2D_landed (o : TrigOracle) (g h : ℚ) (l : Lander) :
    (integrate2D o g h l).landed = l.landed := by
  unfold integrate2D; split_ifs <;> rfl

/-- Helper: integration never touches the crashed flag. -/
theorem integrate2D_crashed (o : TrigOracle) (g h : ℚ) (l : Lander) :
    (integrate2D o g h l).crashed = l.crashed := by
  unfold integrate2D; split_ifs <;> rfl

/-- Helper: the collision step on a terminal lander is the identity. -/
theorem checkCollisions2DStep_terminal (st : PhysState) (l : Lander)
    (hl : st.lander = some l) (ht : l.landed = true ∨ l.crashed = true) :
    checkCollisions2DStep st = st := by
  obtain ⟨g, ts, ppm, la, te⟩ := st
  simp only at hl
  subst hl
  cases te with
  | none => rfl
  | some t =>
    unfold checkCollisions2DStep
    dsimp only
    rw [if_pos ht]

/-- Helper: Update2D on a terminal lander is the identity. -/
theorem update2D_terminal (o : TrigOracle) (dt : ℚ) (st : PhysState) (l : Lander)
    (hl : st.lander = some l) (ht : l.landed = true ∨ l.crashed = true) :
    update2D o dt st = st := by
  obtain ⟨g, ts, ppm, la, te⟩ := st
  simp only at hl
  subst hl
  cases te with
  | none => rfl
  | some t =>
    unfold update2D
    dsimp only
    rw [integrate2D_terminal o g (dt * ts) l ht]
    exact checkCollisions2DStep_terminal ⟨g, ts, ppm, some l, some t⟩ l rfl ht

/-- Helper: the collision step preserves flag exclusion. -/
theorem checkCollisions2DStep_flags (st : PhysState) (hex : FlagsExclusive st) :
    FlagsExclusive (checkCollisions2DStep st) := by
  obtain ⟨g, ts, ppm, la, te⟩ := st
  cases la with
  | none => exact hex
  | some l =>
    cases te with
    | none => exact hex
    | some t =>
      unfold checkCollisions2DStep
      dsimp only
      by_cases hterm : l.landed = true ∨ l.crashed = true
      · rw [if_pos hterm]; exact hex
      · rw [if_neg hterm]
        push_neg at hterm
        cases hcol : checkCollision2D t (some l) with
        | none => exact hex
        | some ch =>
          dsimp only
          split_ifs with hv
          · intro l1 h1
            dsimp only at h1
            injection h1 with h1
            subst h1
            rintro ⟨-, hcc⟩
            exact hterm.2 hcc
          · intro l1 h1
            dsimp only at h1
            injection h1 with h1
            subst h1
            rintro ⟨hll, -⟩
            exact hterm.1 hll

/-- Helper: Update2D preserves flag exclusion. -/
theorem update2D_flags (o : TrigOracle) (dt : ℚ) (st : PhysState)
    (hex : FlagsExclusive st) : FlagsExclusive (update2D o dt st) := by
  obtain ⟨g, ts, ppm, la, te⟩ := st
  cases la with
  | none => exact hex
  | some l =>
    cases te with
    | none => exact hex
    | some t =>
      unfold update2D
      dsimp only
      apply checkCollisions2DStep_flags
      intro l1 h1
      dsimp only at h1
      injection h1 with h1
      subst h1
      rw [integrate2D_landed, integrate2D_crashed]
      exact hex l rfl

/-- Helper: Lander.Update never touches the terminal flags. -/
theorem landerUpdate_flags (dt : ℚ) (l : Lander) :
    (landerUpdate dt l).landed = l.landed ∧ (landerUpdate dt l).crashed = l.crashed := by
  unfold landerUpdate; split_ifs <;> exact ⟨rfl, rfl⟩

/-- Helper: Lander.ApplyThrust never touches the terminal flags. -/
theorem landerApplyThrust_flags (a : ℚ) (l : Lander) :
    (landerApplyThrust a l).landed = l.landed ∧ (landerApplyThrust a l).crashed = l.crashed := by
  unfold landerApplyThrust; split_ifs <;> exact ⟨rfl, rfl⟩

/-- Helper: Physics.ApplyThrust never touches the terminal flags. -/
theorem physicsApplyThrust_flags (hrb : Bool) (dt : ℚ) (l : Lander) :
    ∃ l1, physicsApplyThrust hrb dt (some l) = some l1 ∧
      l1.landed = l.landed ∧ l1.crashed = l.crashed := by
  have hred : physicsApplyThrust hrb dt (some l) =
      (if hrb = false ∨ l.thrustActive = false then some l
       else if 0 < l.fuel ∧ max 0 (l.fuel - 10 * l.thrustLevel * dt) ≤ 0 then
         some (landerApplyThrust 0 l)
       else some l) := rfl
  rw [hred]
  split_ifs
  · exact ⟨l, rfl, rfl, rfl⟩
  · exact ⟨landerApplyThrust 0 l, rfl, (landerApplyThrust_flags 0 l).1,
      (landerApplyThrust_flags 0 l).2⟩
  · exact ⟨l, rfl, rfl, rfl⟩

/-- Helper: a mapped lander mutation that preserves flag exclusion per
lander preserves it on the state. -/
theorem flags_map (st : PhysState) (f : Lander → Lander)
    (hf : ∀ l, ¬(l.landed = true ∧ l.crashed = true) →
      ¬((f l).landed = true ∧ (f l).crashed = true))
    (hex : FlagsExclusive st) :
    FlagsExclusive { st with lander := st.lander.map f } := by
  intro l1 h1
  cases hla : st.lander with
  | none => rw [show ({ st with lander := st.lander.map f } : PhysState).lander
      = st.lander.map f from rfl, hla] at h1; simp at h1
  | some l =>
    rw [show ({ st with lander := st.lander.map f } : PhysState).lander
      = st.lander.map f from rfl, hla] at h1
    simp only [Option.map_some'] at h1
    injection h1 with h1
    subst h1
    exact hf l (hex l hla)

/-- Helper: every physics operation preserves flag exclusion. -/
theorem runOp_flags (o : TrigOracle) (op : PhysOp) (st : PhysState)
    (hex : FlagsExclusive st) : FlagsExclusive (runOp o op st) := by
  cases op with
  | update dt => exact update2D_flags o (dt * st.timeScale) st hex
  | update2DOp dt => exact update2D_flags o dt st hex
  | collide => exact checkCollisions2DStep_flags st hex
  | entityUpdate dt =>
    refine flags_map st (landerUpdate dt) ?_ hex
    intro l hl hc
    rw [(landerUpdate_flags dt l).1, (landerUpdate_flags dt l).2] at hc
    exact hl hc
  | thrustCmd a =>
    refine flags_map st (landerApplyThrust a) ?_ hex
    intro l hl hc
    rw [(landerApplyThrust_flags a l).1, (landerApplyThrust_flags a l).2] at hc
    exact hl hc
  | engineThrust hrb dt =>
    intro l1 h1
    rw [show (runOp o (PhysOp.engineThrust hrb dt) st).lander
      = physicsApplyThrust hrb dt st.lander from rfl] at h1
    cases hla : st.lander with
    | none => rw [hla] at h1; exact absurd h1 (by simp [physicsApplyThrust])
    | some l =>
      rw [hla] at h1
      obtain ⟨l2, he, hld, hcr⟩ := physicsApplyThrust_flags hrb dt l
      rw [he] at h1
      injection h1 with h1
      subst h1
      rw [hld, hcr]
      exact hex l hla
  | reset =>
    refine flags_map st landerReset ?_ hex
    intro l _ hc
    exact absurd hc.1 (by simp [landerReset])

end LunarLander

namespace LunarLander

/-- C3: when the 2D collision step fires on a non-terminal lander, the
resulting lander has its bottom snapped to the collision height, both
velocity components zeroed, the landed flag set exactly when
IsValidLanding2D holds of the snapped lander and the crashed flag set
otherwise, so exactly one terminal flag is set; moreover every sequence of
physics operations preserves the mutual exclusion of the two flags. -/
theorem checkCollisions2DStep_classifies :
    (∀ (st : PhysState) (l : Lander) (t : Terrain2D) (ch : ℚ),
      st.lander = some l → st.terrain = some t →
      l.landed = false → l.crashed = false →
      checkCollision2D t (some l) = some ch →
      ∃ l1, (checkCollisions2DStep st).lander = some l1 ∧
        l1.posY - (l.height / st.pixelsPerMeter) / 2 = ch ∧
        l1.velX = 0 ∧ l1.velY = 0 ∧
        l1.landed = isValidLanding2D t
          (some { l with posY := ch + (l.height / st.pixelsPerMeter) / 2 }) ∧
        l1.crashed = !(isValidLanding2D t
          (some { l with posY := ch + (l.height / st.pixelsPerMeter) / 2 })) ∧
        ¬(l1.landed = true ∧ l1.crashed = true) ∧
        (l1.landed = true ∨ l1.crashed = true)) ∧
    (∀ (o : TrigOracle) (ops : List PhysOp) (st : PhysState),
      FlagsExclusive st → FlagsExclusive (runOps o ops st)) := by
  constructor
  · intro st l t ch hl ht hland hcr hcol
    obtain ⟨g, ts, ppm, la, te⟩ := st
    simp only at hl ht ⊢
    subst hl
    subst ht
    unfold checkCollisions2DStep
    dsimp only
    rw [if_neg (by rw [hland, hcr]; simp)]
    rw [hcol]
    dsimp only
    split_ifs with hv
    · refine ⟨_, rfl, by ring, rfl, rfl, ?_, ?_, ?_, Or.inl rfl⟩
      · rw [hv]
      · rw [hv]
        exact hcr
      · rintro ⟨-, hcc⟩
        rw [hcr] at hcc
        exact Bool.false_ne_true hcc
    · refine ⟨_, rfl, by ring, rfl, rfl, ?_, ?_, ?_, Or.inr rfl⟩
      · rw [Bool.not_eq_true] at hv
        rw [hv]
        exact hland
      · rw [Bool.not_eq_true] at hv
        rw [hv]
        rfl
      · rintro ⟨hll, -⟩
        rw [hland] at hll
        exact Bool.false_ne_true hll
  · intro o ops
    induction ops with
    | nil => intro st h; exact h
    | cons op ops ih =>
      intro st h
      have hstep : runOps o (op :: ops) st = runOps o ops (runOp o op st) := by
        unfold runOps
        rw [List.foldl_cons]
      rw [hstep]
      exact ih (runOp o op st) (runOp_flags o op st h)

/-- Witness for C3 at concrete inputs: on egState the collision fires at
height 1 m and the step lands the lander with exactly one flag set; and
flag exclusion holds after a concrete operation sequence from egState. -/
theorem checkCollisions2DStep_classifies_witness :
    (∃ l1, (checkCollisions2DStep egState).lander = some l1 ∧
      l1.posY - (egLander.height / egState.pixelsPerMeter) / 2 = 1 ∧
      l1.velX = 0 ∧ l1.velY = 0 ∧
      l1.landed = isValidLanding2D egTerrain
        (some { egLander with posY := 1 + (egLander.height / egState.pixelsPerMeter) / 2 }) ∧
      l1.crashed = !(isValidLanding2D egTerrain
        (some { egLander with posY := 1 + (egLander.height / egState.pixelsPerMeter) / 2 })) ∧
      ¬(l1.landed = true ∧ l1.crashed = true) ∧
      (l1.landed = true ∨ l1.crashed = true)) ∧
    FlagsExclusive (runOps egOracle [PhysOp.update 1, PhysOp.collide] egState) := by
  constructor
  · refine checkCollisions2DStep_classifies.1 egState egLander egTerrain 1 rfl rfl rfl rfl ?_
    norm_num [checkCollision2D, checkCollision2DCore, List.findSome?, collideSegment,
      screenX, landerBottomY, segmentHeightMeters, egTerrain, egLander]
  · refine checkCollisions2DStep_classifies.2 egOracle [PhysOp.update 1, PhysOp.collide]
      egState ?_
    intro l h
    injection h with h
    subst h
    rintro ⟨hl, -⟩
    exact Bool.false_ne_true hl

/-- C4: once the lander is landed or crashed, any number of 2D-mode
Physics.Update calls with arbitrary delta-times leaves the physics state,
and in particular the lander position and velocity, completely unchanged. -/
theorem physicsUpdate_terminal_frozen (o : TrigOracle) (st : PhysState) (l : Lander)
    (dts : List ℚ) (hl : st.lander = some l)
    (ht : l.landed = true ∨ l.crashed = true) :
    dts.foldl (fun s dt => physicsUpdate o dt s) st = st := by
  induction dts with
  | nil => rfl
  | cons d ds ih =>
    rw [List.foldl_cons]
    have h1 : physicsUpdate o d st = st := by
      unfold physicsUpdate
      exact update2D_terminal o (d * st.timeScale) st l hl ht
    rw [h1]
    exact ih

/-- Witness for C4 at concrete inputs: two updates on the already-landed
concrete state change nothing. -/
theorem physicsUpdate_terminal_frozen_witness :
    ([1, 2] : List ℚ).foldl (fun s dt => physicsUpdate egOracle dt s) egLandedState
      = egLandedState :=
  physicsUpdate_terminal_frozen egOracle egLandedState egLandedLander [1, 2] rfl (Or.inl rfl)

end LunarLander

namespace LunarLander

/-- C8 counterexample: the 3D terrain queries (Terrain.CheckCollision3D and
Terrain.IsValidLanding3D) dereference the vehicle with no null check, so on
a null vehicle they have no defined early-return result, refuting the claim
that every listed physics operation handles a null collaborator by an early
return. -/
theorem nullVehicle3D_counterexample :
    (¬ ∃ r, checkCollision3D egTerrain3D none = some r) ∧
    (¬ ∃ b, isValidLanding3D egTerrain3D none = some b) := by
  constructor
  · rintro ⟨r, h⟩
    simp [checkCollision3D] at h
  · rintro ⟨b, h⟩
    simp [isValidLanding3D] at h

/-- C8 amended: the 2D operations Physics.Update2D, Terrain.CheckCollision2D
and Terrain.IsValidLanding2D handle a null vehicle or terrain by an early
return with no state mutated and a defined result; the guarantee does not
extend to the 3D terrain queries, which lack the null check. -/
theorem null_early_return_2D (o : TrigOracle) (dt : ℚ) :
    (∀ st : PhysState, st.lander = none → update2D o dt st = st) ∧
    (∀ st : PhysState, st.terrain = none → update2D o dt st = st) ∧
    (∀ t : Terrain2D, checkCollision2D t none = none) ∧
    (∀ t : Terrain2D, isValidLanding2D t none = false) := by
  refine ⟨?_, ?_, fun t => rfl, fun t => rfl⟩
  · intro st h
    obtain ⟨g, ts, ppm, la, te⟩ := st
    simp only at h
    subst h
    cases te <;> rfl
  · intro st h
    obtain ⟨g, ts, ppm, la, te⟩ := st
    simp only at h
    subst h
    cases la <;> rfl

/-- Witness for the amended C8 at concrete inputs. -/
theorem null_early_return_2D_witness :
    update2D egOracle 1 egNullLanderState = egNullLanderState ∧
    update2D egOracle 1 egNullTerrainState = egNullTerrainState ∧
    checkCollision2D egTerrain none = none ∧
    isValidLanding2D egTerrain none = false :=
  ⟨(null_early_return_2D egOracle 1).1 egNullLanderState rfl,
   (null_early_return_2D egOracle 1).2.1 egNullTerrainState rfl,
   (null_early_return_2D egOracle 1).2.2.1 egTerrain,
   (null_early_return_2D egOracle 1).2.2.2 egTerrain⟩

/-- C9 counterexample: with time scale 2, gravity 1 and dt 1, the 2D-mode
Physics.Update changes the vertical velocity by -(2 × 2 × 1) and not by
-(2 × 1), because the time scale multiplies the step once in Update and a
second time in Update2D, refuting the linear reading of the claim. -/
theorem physicsUpdate_timeScale_counterexample :
    (physicsUpdate egOracle 1 egScaledState).lander.map Lander.velY = some (-4) ∧
    (integrate2D egOracle egScaledState.gravity (egScaledState.timeScale * 1)
      egFreeLander).velY = -2 ∧
    (physicsUpdate egOracle 1 egScaledState).lander.map Lander.velY ≠
      some ((integrate2D egOracle egScaledState.gravity (egScaledState.timeScale * 1)
        egFreeLander).velY) := by
  have h1 : (physicsUpdate egOracle 1 egScaledState).lander.map Lander.velY = some (-4) := by
    norm_num [physicsUpdate, update2D, checkCollisions2DStep, integrate2D, checkCollision2D,
      checkCollision2DCore, List.findSome?, egScaledState, egFreeLander, egLander,
      egEmptyTerrain, egOracle]
  have h2 : (integrate2D egOracle egScaledState.gravity (egScaledState.timeScale * 1)
      egFreeLander).velY = -2 := by
    norm_num [integrate2D, egScaledState, egFreeLander, egLander, egOracle]
  refine ⟨h1, h2, ?_⟩
  rw [h1, h2]
  norm_num

/-- C9 amended: a 2D-mode Physics.Update advances the analytic integration
with an effective step of exactly timeScale² × dt: the time scale is
applied once in Update and once more inside Update2D.  With the default
time scale 1 this coincides with the claimed linear scaling. -/
theorem physicsUpdate_effective_step (o : TrigOracle) (dt : ℚ) (st : PhysState)
    (l : Lander) (t : Terrain2D) (hl : st.lander = some l) (ht : st.terrain = some t) :
    physicsUpdate o dt st =
      checkCollisions2DStep
        { st with lander := some (integrate2D o st.gravity (st.timeScale * st.timeScale * dt) l) } := by
  obtain ⟨g, ts, ppm, la, te⟩ := st
  simp only at hl ht ⊢
  subst hl
  subst ht
  unfold physicsUpdate update2D
  dsimp only
  rw [show dt * ts * ts = ts * ts * dt from by ring]

/-- Witness for the amended C9 at concrete inputs. -/
theorem physicsUpdate_effective_step_witness :
    physicsUpdate egOracle 1 egScaledState =
      checkCollisions2DStep
        { egScaledState with lander := some (integrate2D egOracle egScaledState.gravity (egScaledState.timeScale * egScaledState.timeScale * 1) egFreeLander) } :=
  physicsUpdate_effective_step egOracle 1 egScaledState egFreeLander egEmptyTerrain rfl rfl

end LunarLander

namespace LunarLander

/-- Helper: half of the pad width is one nominal segment. -/
theorem landingPadStart_eq (width : ℕ) :
    landingPadStart width = width / 2 - nominalSegW width := by
  unfold landingPadStart landingPadWidth nominalSegW
  omega

/-- Helper: the inclusive end index equals the start index plus two. -/
theorem endSegment_eq (width : ℕ) (hw : 10 ≤ width) :
    endSegment width = startSegment width + 2 := by
  unfold endSegment startSegment
  have hq : 0 < nominalSegW width := by unfold nominalSegW; omega
  rw [show landingPadWidth width = 2 * nominalSegW width from by
    unfold landingPadWidth; ring]
  exact Nat.add_mul_div_right _ 2 hq

/-- Helper: the start index always lies between 4 and 8 for width at least
10, so the marked range always meets [0, 10). -/
theorem startSegment_bounds (width : ℕ) (hw : 10 ≤ width) :
    4 ≤ startSegment width ∧ startSegment width ≤ 8 := by
  have hq : 0 < nominalSegW width := by unfold nominalSegW; omega
  have h1 : landingPadStart width = width % 10 / 2 + 4 * nominalSegW width := by
    rw [landingPadStart_eq]; unfold nominalSegW; omega
  unfold startSegment
  rw [h1, Nat.add_mul_div_right _ 4 hq]
  have key : width % 10 / 2 / nominalSegW width ≤ 4 :=
    le_trans (Nat.div_le_self _ _) (by omega)
  exact ⟨Nat.le_add_left 4 _, Nat.add_le_add_right key 4⟩

/-- C6 counterexample: for width 800 and height 600, Generate2D marks three
segments as landing pad (indices 4, 5 and 6, spanning pixels 320 to 560),
because the marking loop includes the inclusive end index; the flagged span
of 240 pixels is not 2 × (800 / 10) = 160 pixels, and its midpoint 440 is
not the horizontal midpoint 400. -/
theorem generate2D_padWidth_counterexample :
    ((generate2D (fun _ => 0) 800 600).filter (fun s => s.isLandingPad)).length = 3 ∧
    ((generate2D (fun _ => 0) 800 600).filter (fun s => s.isLandingPad)).map
      (fun s => (s.x1, s.x2)) = [(320, 400), (400, 480), (480, 560)] ∧
    ¬ ((560 : ℚ) - 320 = 2 * (800 / 10)) ∧
    ¬ (((320 : ℚ) + 560) / 2 = 800 / 2) :=
  ⟨by decide, by decide, by norm_num, by norm_num⟩

/-- C6 amended: for every width of at least 10 pixels (so the nominal
segment width is positive) and every height and rand stream, Generate2D
yields 10 segments; the segments marked as landing pad are exactly the
contiguous index range from startSegment to startSegment + 2 clipped to
[0, 10) (three segments when it fits, one more than the nominal two-segment
pad, because the marking loop includes the inclusive end index); the start
index always lies in [4, 8]; every pad segment is perfectly flat at the
baseline height - 50; and every segment is one nominal segment wide. -/
theorem generate2D_pad_characterization (r : ℕ → ℕ) (width height : ℕ) (hw : 10 ≤ width) :
    (generate2D r width height).length = 10 ∧
    endSegment width = startSegment width + 2 ∧
    (4 ≤ startSegment width ∧ startSegment width ≤ 8) ∧
    (∀ i : ℕ, i < 10 →
      ∃ s : TerrainSegment, (generate2D r width height)[i]? = some s ∧
        (s.isLandingPad = true ↔ (startSegment width ≤ i ∧ i ≤ startSegment width + 2)) ∧
        (s.isLandingPad = true → s.y1 = (((height : ℤ) - 50 : ℤ) : ℚ) ∧ s.y2 = s.y1) ∧
        s.x1 = ((i * nominalSegW width : ℕ) : ℚ) ∧
        s.x2 = (((i + 1) * nominalSegW width : ℕ) : ℚ)) := by
  refine ⟨?_, endSegment_eq width hw, startSegment_bounds width hw, ?_⟩
  · unfold generate2D
    rw [List.length_map, List.length_range]
  · intro i hi
    unfold generate2D
    rw [List.getElem?_map]
    rw [List.getElem?_range hi]
    simp only [Option.map_some']
    by_cases hcond : startSegment width ≤ i ∧ i ≤ endSegment width
    · rw [if_pos hcond]
      refine ⟨_, rfl, ?_, fun _ => ⟨rfl, rfl⟩, rfl, rfl⟩
      constructor
      · intro _
        exact ⟨hcond.1, by rw [← endSegment_eq width hw]; exact hcond.2⟩
      · intro _
        rfl
    · rw [if_neg hcond]
      refine ⟨_, rfl, ?_, ?_, rfl, rfl⟩
      · constructor
        · intro hfalse
          exact absurd hfalse (by simp)
        · intro hrange
          exact absurd ⟨hrange.1, by rw [endSegment_eq width hw]; exact hrange.2⟩ hcond
      · intro hfalse
        exact absurd hfalse (by simp)

/-- Witness for the amended C6 at concrete inputs: width 800, height 600,
zero rand stream, index 5. -/
theorem generate2D_pad_characterization_witness :
    ∃ s : TerrainSegment, (generate2D (fun _ => 0) 800 600)[5]? = some s ∧
      (s.isLandingPad = true ↔ (startSegment 800 ≤ 5 ∧ 5 ≤ startSegment 800 + 2)) ∧
      (s.isLandingPad = true → s.y1 = (((600 : ℤ) - 50 : ℤ) : ℚ) ∧ s.y2 = s.y1) ∧
      s.x1 = ((5 * nominalSegW 800 : ℕ) : ℚ) ∧
      s.x2 = (((5 + 1) * nominalSegW 800 : ℕ) : ℚ) :=
  (generate2D_pad_characterization (fun _ => 0) 800 600 (by norm_num)).2.2.2 5 (by norm_num)

end LunarLander
